import Mathlib

/-!
Shallow embedding of the Hubspace light accessory
(`src/accessories/light-accessory.ts`) and of the parts of the
`color-convert` npm library it calls (`convert.hex.hsl`, `convert.hsv.hex`).

JavaScript numbers are modelled as rationals (`ℚ`); all values occurring in
the color pipeline are exactly representable.  `Math.round`, `Math.floor`,
JS `%` (truncated remainder) and the `& 0xFF` masking are modelled
explicitly.  Thrown values are modelled by the inductive type `Err`
(every thrown value in the embedding is an `Error` instance, matching how
the device service and the handlers construct their errors).
-/

set_option autoImplicit false

deriving instance DecidableEq for Except

/-- JS `Math.round`: round half toward positive infinity,
`Math.round x = ⌊x + 1/2⌋`. -/
def jsRound (q : ℚ) : Int :=
  Int.floor (q + 1/2)

/-- JS `Math.floor`. -/
def jsFloor (q : ℚ) : Int :=
  Int.floor q

/-- Hex-digit test for the character class `[a-f0-9]` with the `i` flag,
i.e. `[a-fA-F0-9]`. -/
def isHexDigit (c : Char) : Bool :=
  (('0' ≤ c && c ≤ '9') || ('a' ≤ c && c ≤ 'f') || ('A' ≤ c && c ≤ 'F'))

/-- Leftmost match of the regex `/[a-f0-9]{6}|[a-f0-9]{3}/i` used by
`convert.hex.rgb`: at each position, first try a 6-hex-digit run, then a
3-hex-digit run, then advance one character. -/
def hexMatch : List Char → Option (List Char)
  | [] => none
  | c :: cs =>
    if ((c :: cs).take 6).length = 6 && ((c :: cs).take 6).all isHexDigit then
      some ((c :: cs).take 6)
    else if ((c :: cs).take 3).length = 3 && ((c :: cs).take 3).all isHexDigit then
      some ((c :: cs).take 3)
    else
      hexMatch cs

/-- Numeric value of one hex digit. -/
def hexDigitVal (c : Char) : Nat :=
  if '0' ≤ c && c ≤ '9' then c.toNat - '0'.toNat
  else if 'a' ≤ c && c ≤ 'f' then c.toNat - 'a'.toNat + 10
  else c.toNat - 'A'.toNat + 10

/-- JS `parseInt(s, 16)` on a string of hex digits. -/
def parseHex (l : List Char) : Nat :=
  l.foldl (fun a c => a * 16 + hexDigitVal c) 0

/-- Embedding of `convert.hex.rgb` (color-convert `conversions.js`):
find the first 6- or 3-hex-digit run in the string; if none, fall back to
`[0, 0, 0]` (black); a 3-digit run has each digit doubled; then split the
parsed integer into the three 8-bit channels. -/
def hex_rgb (s : String) : Nat × Nat × Nat :=
  match hexMatch s.data with
  | none => (0, 0, 0)
  | some m =>
    let m6 := if m.length = 3 then m.foldr (fun c acc => c :: c :: acc) [] else m
    let integer := parseHex m6
    ((integer >>> 16) &&& 255, (integer >>> 8) &&& 255, integer &&& 255)

/-- Embedding of the raw `convert.rgb.hsl`: returns the HSL triple as exact
rationals, hue in degrees, saturation and lightness already scaled by 100. -/
def rgb_hsl (rgb : Nat × Nat × Nat) : ℚ × ℚ × ℚ :=
  let r : ℚ := (rgb.1 : ℚ) / 255
  let g : ℚ := (rgb.2.1 : ℚ) / 255
  let b : ℚ := (rgb.2.2 : ℚ) / 255
  let mn : ℚ := min r (min g b)
  let mx : ℚ := max r (max g b)
  let delta : ℚ := mx - mn
  let h0 : ℚ :=
    if mx = mn then 0
    else if r = mx then (g - b) / delta
    else if g = mx then 2 + (b - r) / delta
    else 4 + (r - g) / delta
  let h1 : ℚ := min (h0 * 60) 360
  let h2 : ℚ := if h1 < 0 then h1 + 360 else h1
  let l : ℚ := (mn + mx) / 2
  let s : ℚ :=
    if mx = mn then 0
    else if l ≤ 1/2 then delta / (mx + mn)
    else delta / (2 - mx - mn)
  (h2, s * 100, l * 100)

/-- Embedding of `convert.hex.hsl`: the routed composition
`rgb.hsl ∘ hex.rgb` wrapped by color-convert's `wrapRounded`, which
`Math.round`s every component of the resulting array. -/
def hex_hsl (s : String) : Int × Int × Int :=
  let hsl := rgb_hsl (hex_rgb s)
  (jsRound hsl.1, jsRound hsl.2.1, jsRound hsl.2.2)

/-- Embedding of the raw `convert.hsv.rgb`.  `hi` uses JS `%`, the
truncated remainder (`Int.tmod`); the accessory only ever calls this with
`hue ∈ [0, 360]` and `value = 100`, where `hi ∈ {0, …, 5}` and the final
match arm is exactly the `case 5` of the source switch. -/
def hsv_rgb (hsv : ℚ × ℚ × ℚ) : ℚ × ℚ × ℚ :=
  let h : ℚ := hsv.1 / 60
  let s : ℚ := hsv.2.1 / 100
  let v : ℚ := hsv.2.2 / 100
  let hi : Int := Int.tmod (jsFloor h) 6
  let f : ℚ := h - (jsFloor h : ℚ)
  let p : ℚ := 255 * v * (1 - s)
  let q : ℚ := 255 * v * (1 - s * f)
  let t : ℚ := 255 * v * (1 - s * (1 - f))
  let v' : ℚ := v * 255
  if hi = 0 then (v', t, p)
  else if hi = 1 then (q, v', p)
  else if hi = 2 then (p, v', t)
  else if hi = 3 then (p, q, v')
  else if hi = 4 then (t, p, v')
  else (v', p, q)

/-- JS `(Math.round x) & 0xFF` on a channel (ToInt32 then mask; for the
magnitudes occurring here this is the Euclidean remainder mod 256). -/
def jsByte (q : ℚ) : Nat :=
  ((jsRound q) % 256).toNat

/-- Uppercase hex digit character for a value below 16. -/
def hexDigitChar (n : Nat) : Char :=
  if n < 10 then Char.ofNat (n + '0'.toNat)
  else Char.ofNat (n - 10 + 'A'.toNat)

/-- Fuelled helper for `natHexUpper`; with fuel above `n` it produces the
base-16 digits of `n`, most significant first. -/
def natHexAux (fuel n : Nat) : List Char :=
  match fuel with
  | 0 => []
  | fuel + 1 =>
    if n < 16 then [hexDigitChar n]
    else natHexAux fuel (n / 16) ++ [hexDigitChar (n % 16)]

/-- Uppercase hex digits of a natural number, as produced by JS
`n.toString(16).toUpperCase()` (no leading zeros; `0` prints as `"0"`). -/
def natHexUpper (n : Nat) : List Char :=
  natHexAux (n + 1) n

/-- Embedding of `convert.rgb.hex`: mask each rounded channel to 8 bits,
pack into one integer, print in hex and left-pad with zeros to 6 digits. -/
def rgb_hex (rgb : ℚ × ℚ × ℚ) : String :=
  let integer : Nat := jsByte rgb.1 * 65536 + jsByte rgb.2.1 * 256 + jsByte rgb.2.2
  let s := natHexUpper integer
  String.mk (List.replicate (6 - s.length) '0' ++ s)

/-- Embedding of `convert.hsv.hex`: the routed composition
`rgb.hex ∘ hsv.rgb` (the rounding happens inside `rgb.hex`; `wrapRounded`
leaves the string result untouched). -/
def hsv_hex (hsv : ℚ × ℚ × ℚ) : String :=
  rgb_hex (hsv_rgb hsv)

/-!
The accessory itself.  External collaborators (`deviceService`,
`setNotResponding`, the HAP callback) are modelled as oracles and traces:
a device call's outcome is an input (`Except Err …`), and the observable
side effects of one handler invocation — the values passed to
`deviceService.setValue` and the arguments of every `callback(…)`
invocation, in order — are returned as lists.
`getFunctionForCharacteristics` is resolved before any of the modelled
behaviour and cannot fail for a configured characteristic (the
constructor only registers handlers for supported characteristics), so it
is not represented.
-/

/-- Error values thrown in the accessory.  Every thrown value is an
`Error` instance, so the `error instanceof Error` test in the catch
blocks always takes its first branch.  `valueNotAvailable` is
`new Error('Value not available')` (the spec's `DeviceUnavailable`);
`deviceFailure e` stands for a rejection of the device-service call
itself (the spec's `DeviceCommunicationFailure`), tagged by an arbitrary
code so that distinct transport errors stay distinct. -/
inductive Err where
  | valueNotAvailable : Err
  | deviceFailure : Nat → Err
deriving DecidableEq, Repr

/-- Modelled from the spec: `isNullOrUndefined` from `src/utils.ts` (not
included under `src/`); per the spec a device read yields a value or
`null`/`undefined`, both of the latter meaning "unavailable", so the test
is `Option.isNone`. -/
def isNullOrUndefined {α : Type} (o : Option α) : Bool :=
  o.isNone

/-- The `_lightColor` instance field: optional pending hue and
saturation. -/
structure LightColor where
  hue : Option ℚ
  saturation : Option ℚ
deriving DecidableEq, Repr

/-- Embedding of `resetColor`: set both fields to `undefined`. -/
def resetColor (_ : LightColor) : LightColor :=
  ⟨none, none⟩

/-- Embedding of `isColorDefined`. -/
def isColorDefined (c : LightColor) : Bool :=
  !(isNullOrUndefined c.hue) && !(isNullOrUndefined c.saturation)

/-- Observable effects of one set-handler invocation: the values passed
to `deviceService.setValue` and the callback invocations in order
(`none` is `callback(null)`, `some e` is `callback(e)`). -/
structure SetTrace where
  writes : List String
  callbacks : List (Option Err)
deriving DecidableEq, Repr

/-- Embedding of `setRgbColor`: convert `(hue, saturation, 100)` to hex
via `convert.hsv.hex` and write it; on success call `callback(null)`, on
a device failure the catch block calls `callback(error)`.  The
try/catch means this method never throws to its caller. -/
def setRgbColor (hue saturation : ℚ) (dev : Except Err Unit) : SetTrace :=
  let hexValue := hsv_hex (hue, saturation, 100)
  match dev with
  | .ok _ => ⟨[hexValue], [none]⟩
  | .error e => ⟨[hexValue], [some e]⟩

/-- Embedding of `setHue`: record the hue; if both pending fields are now
set, run `setRgbColor` (whose callback invocations happen first) and then
`resetColor`; finally call `callback(null)`.  Since `setRgbColor`
swallows its own errors, the surrounding catch block is unreachable. -/
def setHue (st : LightColor) (value : ℚ) (dev : Except Err Unit) :
    LightColor × SetTrace :=
  let st1 : LightColor := { st with hue := some value }
  if isColorDefined st1 then
    let tr := setRgbColor (st1.hue.getD 0) (st1.saturation.getD 0) dev
    (resetColor st1, ⟨tr.writes, tr.callbacks ++ [none]⟩)
  else
    (st1, ⟨[], [none]⟩)

/-- Embedding of `setSaturation`, the mirror image of `setHue`. -/
def setSaturation (st : LightColor) (value : ℚ) (dev : Except Err Unit) :
    LightColor × SetTrace :=
  let st1 : LightColor := { st with saturation := some value }
  if isColorDefined st1 then
    let tr := setRgbColor (st1.hue.getD 0) (st1.saturation.getD 0) dev
    (resetColor st1, ⟨tr.writes, tr.callbacks ++ [none]⟩)
  else
    (st1, ⟨[], [none]⟩)

/-- Observable outcome of one get-handler invocation: the value returned
or the error rethrown (`result`), the errors passed to `callback`, and
how many times `setNotResponding` ran. -/
structure GetTrace (α : Type) where
  result : Except Err α
  callbacks : List Err
  notResponding : Nat
deriving Repr

/-- JS truthiness test `!value` for a string read: `null`/`undefined`
and the empty string are falsy. -/
def jsFalsyString (v : Option String) : Bool :=
  v.isNone || v == some ""

/-- Embedding of `getHue`: read the color string; if the device call
throws, the catch block reports and rethrows; if the value is falsy,
`setNotResponding()` runs, then `Error('Value not available')` is thrown,
reported to the callback and rethrown; otherwise return component `[0]`
of `convert.hex.hsl(value)`. -/
def getHue (dev : Except Err (Option String)) : GetTrace Int :=
  match dev with
  | .error e => ⟨.error e, [e], 0⟩
  | .ok v =>
    if jsFalsyString v then
      ⟨.error .valueNotAvailable, [.valueNotAvailable], 1⟩
    else
      ⟨.ok (hex_hsl (v.getD "")).1, [], 0⟩

/-- Embedding of `getSaturation`: as `getHue` but returns component `[1]`
of the HSL triple. -/
def getSaturation (dev : Except Err (Option String)) : GetTrace Int :=
  match dev with
  | .error e => ⟨.error e, [e], 0⟩
  | .ok v =>
    if jsFalsyString v then
      ⟨.error .valueNotAvailable, [.valueNotAvailable], 1⟩
    else
      ⟨.ok (hex_hsl (v.getD "")).2.1, [], 0⟩

/-- Embedding of `getOn`: read the boolean; `isNullOrUndefined` triggers
the unavailable error; there is no `setNotResponding` call in this
handler. -/
def getOn (dev : Except Err (Option Bool)) : GetTrace Bool :=
  match dev with
  | .error e => ⟨.error e, [e], 0⟩
  | .ok v =>
    if isNullOrUndefined v then
      ⟨.error .valueNotAvailable, [.valueNotAvailable], 0⟩
    else
      ⟨.ok (v.getD false), [], 0⟩

/-- Embedding of `getBrightness`: read the integer; `null`/`undefined`
or the sentinel `-1` triggers the unavailable error; no
`setNotResponding` call here either. -/
def getBrightness (dev : Except Err (Option Int)) : GetTrace Int :=
  match dev with
  | .error e => ⟨.error e, [e], 0⟩
  | .ok v =>
    if isNullOrUndefined v || v == some (-1) then
      ⟨.error .valueNotAvailable, [.valueNotAvailable], 0⟩
    else
      ⟨.ok (v.getD 0), [], 0⟩

/-- Circular distance in degrees between two hue angles, taken mod 360
(both `%` are Euclidean, so the result lies in `[0, 180]`). -/
def hueDist (a b : Int) : Int :=
  min ((a - b) % 360) ((b - a) % 360)

/-- Integer mirror of `hsv_rgb` at value 100 followed by the per-channel
byte rounding of `rgb_hex`, for natural hue (`≤ 360`) and saturation
(`≤ 100`); every channel is an exact fraction over 6000 there, and
`Math.round (N/6000) = (N + 3000) / 6000` on naturals. -/
def hsvBytes (h s : Nat) : Nat × Nat × Nat :=
  let r := h % 60
  let hi := h / 60 % 6
  let p := (60 * 255 * (100 - s) + 3000) / 6000
  let q := (255 * (6000 - s * r) + 3000) / 6000
  let t := (255 * (6000 - s * (60 - r)) + 3000) / 6000
  let v := 255
  if hi = 0 then (v, t, p)
  else if hi = 1 then (q, v, p)
  else if hi = 2 then (p, v, t)
  else if hi = 3 then (p, q, v)
  else if hi = 4 then (t, p, v)
  else (v, p, q)

/-- Integer mirror of the rounded hue component of `rgb_hsl` on a byte
triple: the factor `1/255` cancels in every hue branch, leaving integer
fractions over `d = max - min`. -/
def rgbHueInt (a b c : Nat) : Int :=
  let mx := max a (max b c)
  let mn := min a (min b c)
  if mx = mn then 0
  else
    let d : Int := (mx : Int) - (mn : Int)
    let num : Int :=
      if a = mx then (b : Int) - (c : Int)
      else if b = mx then 2 * d + ((c : Int) - (a : Int))
      else 4 * d + ((a : Int) - (b : Int))
    if 60 * num ≤ 360 * d then
      if num < 0 then (120 * num + 720 * d + d) / (2 * d)
      else (120 * num + d) / (2 * d)
    else 360


/-- All-natural-number mirror of `rgbHueInt` for byte inputs: the signed
numerator is stored shifted by `+360` and the two rounding divisions have
the `43200 = 120 * 360` shift folded in, so every quantity stays a
natural number. -/
def natHue (a b c : Nat) : Nat :=
  let mx := max a (max b c)
  let mn := min a (min b c)
  if mx = mn then 0
  else
    let d := mx - mn
    let numPlus :=
      if a = mx then 360 + b - c
      else if b = mx then 360 + 2 * d + c - a
      else 360 + 4 * d + a - b
    if 60 * numPlus ≤ 360 * d + 21600 then
      if numPlus < 360 then (120 * numPlus + 720 * d + d - 43200) / (2 * d)
      else (120 * numPlus + d - 43200) / (2 * d)
    else 360

/-- One round-trip tolerance check, on naturals only: the re-encoded
bytes are in range, the mirrored decoded hue is in `[0, 360]`, and its
circular distance to the original hue is at most one degree. -/
def hueTolOk (h s : Nat) : Bool :=
  match hsvBytes h s with
  | (a, b, c) =>
    decide (a ≤ 255) && decide (b ≤ 255) && decide (c ≤ 255) &&
      (decide (natHue a b c ≤ 360) &&
        decide (min (max (natHue a b c) h - min (natHue a b c) h)
          (360 - (max (natHue a b c) h - min (natHue a b c) h)) ≤ 1))

/-- `rowOk s n` checks `hueTolOk h s` for every hue `h < n`. -/
def rowOk (s : Nat) : Nat → Bool
  | 0 => true
  | h + 1 => hueTolOk h s && rowOk s h

/-- `chunkOk lo n` checks the full hue range for every saturation
`lo ≤ s < lo + n`. -/
def chunkOk (lo : Nat) : Nat → Bool
  | 0 => true
  | n + 1 => rowOk (lo + n) 361 && chunkOk lo n

/-! Claim theorems. -/

/-- C1: starting from empty pending color state, a `setHue` alone issues
no device `setValue` call, a `setSaturation` alone issues none, and a
`setHue` followed by a `setSaturation` (or the reverse order) issues
exactly one `setValue` call, whose value is the `convert.hsv.hex`
encoding of the given hue and saturation at value 100 — whatever the
device outcomes are. -/
theorem single_sets_defer_and_pair_writes_once (h s : ℚ)
    (dev₁ dev₂ : Except Err Unit) :
    (setHue ⟨none, none⟩ h dev₁).2.writes = [] ∧
    (setSaturation ⟨none, none⟩ s dev₁).2.writes = [] ∧
    (setHue ⟨none, none⟩ h dev₁).2.writes
        ++ (setSaturation (setHue ⟨none, none⟩ h dev₁).1 s dev₂).2.writes
      = [hsv_hex (h, s, 100)] ∧
    (setSaturation ⟨none, none⟩ s dev₁).2.writes
        ++ (setHue (setSaturation ⟨none, none⟩ s dev₁).1 h dev₂).2.writes
      = [hsv_hex (h, s, 100)] := by
  cases dev₁ <;> cases dev₂ <;>
    simp [setHue, setSaturation, setRgbColor, isColorDefined,
      isNullOrUndefined, resetColor]

/-- C2: whenever a set handler performs a combined-write attempt (its
trace contains a device write), the pending state afterwards is fully
reset — regardless of the device outcome — so a following single
hue-only or saturation-only set performs no device write. -/
theorem combined_attempt_resets_pending (st : LightColor) (v w : ℚ)
    (dev dev' : Except Err Unit) :
    ((setHue st v dev).2.writes ≠ [] →
      (setHue st v dev).1 = ⟨none, none⟩ ∧
      (setHue (setHue st v dev).1 w dev').2.writes = [] ∧
      (setSaturation (setHue st v dev).1 w dev').2.writes = []) ∧
    ((setSaturation st v dev).2.writes ≠ [] →
      (setSaturation st v dev).1 = ⟨none, none⟩ ∧
      (setHue (setSaturation st v dev).1 w dev').2.writes = [] ∧
      (setSaturation (setSaturation st v dev).1 w dev').2.writes = []) := by
  obtain ⟨hu, sa⟩ := st
  cases hu <;> cases sa <;> cases dev <;>
    simp [setHue, setSaturation, setRgbColor, isColorDefined,
      isNullOrUndefined, resetColor]

/-- C2 witness: a concrete combined-write attempt (pending saturation 50,
then `setHue 10` with a failing device) resets the state and the next
single sets write nothing. -/
theorem combined_attempt_resets_pending_witness :
    (setHue ⟨none, some 50⟩ 10 (.error (.deviceFailure 0))).1 = ⟨none, none⟩ ∧
    (setHue (setHue ⟨none, some 50⟩ 10 (.error (.deviceFailure 0))).1 20 (.ok ())).2.writes = [] ∧
    (setSaturation (setHue ⟨none, some 50⟩ 10 (.error (.deviceFailure 0))).1 20 (.ok ())).2.writes = [] :=
  (combined_attempt_resets_pending ⟨none, some 50⟩ 10 20
      (.error (.deviceFailure 0)) (.ok ())).1
    (by simp [setHue, setRgbColor, isColorDefined, isNullOrUndefined])

/-- C3 counterexample: with pending hue 240, `setSaturation 80` against a
failing device records the error callback but then also invokes
`callback(null)` — a success report — so the handler does not refuse to
report success. -/
theorem failed_combined_write_also_reports_success_cx :
    (setSaturation ⟨some 240, none⟩ 80 (.error (.deviceFailure 0))).2.callbacks
        = [some (.deviceFailure 0), none] ∧
    none ∈ (setSaturation ⟨some 240, none⟩ 80 (.error (.deviceFailure 0))).2.callbacks := by
  constructor <;>
    simp [setSaturation, setRgbColor, isColorDefined, isNullOrUndefined]

/-- C3 amended: when the device `setValue` of a combined-write attempt
fails, the first callback invocation carries that error — so under the
host's first-invocation-wins callback semantics the set operation fails —
and the pending state is still reset; the handler does, however, follow
up with a redundant `callback(null)`. -/
theorem failed_combined_write_error_first (st : LightColor) (v : ℚ) (e : Err) :
    ((setHue st v (.error e)).2.writes ≠ [] →
      (setHue st v (.error e)).2.callbacks.head? = some (some e) ∧
      (setHue st v (.error e)).1 = ⟨none, none⟩) ∧
    ((setSaturation st v (.error e)).2.writes ≠ [] →
      (setSaturation st v (.error e)).2.callbacks.head? = some (some e) ∧
      (setSaturation st v (.error e)).1 = ⟨none, none⟩) := by
  obtain ⟨hu, sa⟩ := st
  cases hu <;> cases sa <;>
    simp [setHue, setSaturation, setRgbColor, isColorDefined,
      isNullOrUndefined, resetColor]

/-- C3 amended witness: concrete failing combined writes in both orders. -/
theorem failed_combined_write_error_first_witness :
    ((setHue ⟨some 30, some 40⟩ 30 (.error (.deviceFailure 2))).2.callbacks.head?
        = some (some (.deviceFailure 2)) ∧
      (setHue ⟨some 30, some 40⟩ 30 (.error (.deviceFailure 2))).1 = ⟨none, none⟩) ∧
    ((setSaturation ⟨some 30, some 40⟩ 40 (.error (.deviceFailure 2))).2.callbacks.head?
        = some (some (.deviceFailure 2)) ∧
      (setSaturation ⟨some 30, some 40⟩ 40 (.error (.deviceFailure 2))).1 = ⟨none, none⟩) :=
  ⟨(failed_combined_write_error_first ⟨some 30, some 40⟩ 30 (.deviceFailure 2)).1
      (by simp [setHue, setRgbColor, isColorDefined, isNullOrUndefined]),
    (failed_combined_write_error_first ⟨some 30, some 40⟩ 40 (.deviceFailure 2)).2
      (by simp [setSaturation, setRgbColor, isColorDefined, isNullOrUndefined])⟩

/-- C4 counterexample: `getOn` with the device reporting a missing value
fails, yet `setNotResponding` is never invoked — the accessory is not
marked unreachable on this get failure. -/
theorem getOn_failure_not_marked_unreachable_cx :
    (getOn (.ok none)).result = .error .valueNotAvailable ∧
    (getOn (.ok none)).notResponding = 0 :=
  ⟨rfl, rfl⟩

/-- C4 amended: only `getHue` and `getSaturation` mark the accessory
not-responding, and only when the device returns an empty or missing
color string (in which case the marking happens and the read fails);
`getOn` and `getBrightness` never mark it, and a failure of the device
call itself does not mark it in any handler. -/
theorem not_responding_only_on_empty_color (devB : Except Err (Option Bool))
    (devI : Except Err (Option Int)) (e : Err) (v : Option String) :
    (getOn devB).notResponding = 0 ∧
    (getBrightness devI).notResponding = 0 ∧
    (getHue (.error e)).notResponding = 0 ∧
    (getSaturation (.error e)).notResponding = 0 ∧
    (jsFalsyString v = true →
      (getHue (.ok v)).notResponding = 1 ∧
      (getHue (.ok v)).result = .error .valueNotAvailable ∧
      (getSaturation (.ok v)).notResponding = 1 ∧
      (getSaturation (.ok v)).result = .error .valueNotAvailable) ∧
    (jsFalsyString v = false →
      (getHue (.ok v)).notResponding = 0 ∧
      (getSaturation (.ok v)).notResponding = 0) := by
  refine ⟨?_, ?_, rfl, rfl, ?_, ?_⟩
  · cases devB with
    | error e => rfl
    | ok v =>
      simp only [getOn]
      split <;> rfl
  · cases devI with
    | error e => rfl
    | ok v =>
      simp only [getBrightness]
      split <;> rfl
  · intro h
    simp [getHue, getSaturation, h]
  · intro h
    simp [getHue, getSaturation, h]

/-- C4 amended witness: the empty string marks not-responding once and
fails the read; a well-formed string marks nothing. -/
theorem not_responding_only_on_empty_color_witness :
    ((getOn (.ok (some true))).notResponding = 0 ∧
      (getBrightness (.ok (some 5))).notResponding = 0 ∧
      (getHue (.error (.deviceFailure 1))).notResponding = 0 ∧
      (getSaturation (.error (.deviceFailure 1))).notResponding = 0 ∧
      ((getHue (.ok (some ""))).notResponding = 1 ∧
        (getHue (.ok (some ""))).result = .error .valueNotAvailable ∧
        (getSaturation (.ok (some ""))).notResponding = 1 ∧
        (getSaturation (.ok (some ""))).result = .error .valueNotAvailable)) ∧
    ((getHue (.ok (some "ff0000"))).notResponding = 0 ∧
      (getSaturation (.ok (some "ff0000"))).notResponding = 0) :=
  ⟨⟨(not_responding_only_on_empty_color (.ok (some true)) (.ok (some 5))
        (.deviceFailure 1) (some "")).1,
    (not_responding_only_on_empty_color (.ok (some true)) (.ok (some 5))
        (.deviceFailure 1) (some "")).2.1,
    (not_responding_only_on_empty_color (.ok (some true)) (.ok (some 5))
        (.deviceFailure 1) (some "")).2.2.1,
    (not_responding_only_on_empty_color (.ok (some true)) (.ok (some 5))
        (.deviceFailure 1) (some "")).2.2.2.1,
    (not_responding_only_on_empty_color (.ok (some true)) (.ok (some 5))
        (.deviceFailure 1) (some "")).2.2.2.2.1 (by decide)⟩,
    (not_responding_only_on_empty_color (.ok (some true)) (.ok (some 5))
        (.deviceFailure 1) (some "ff0000")).2.2.2.2.2 (by decide)⟩

/-- C5: `getBrightness` fails with the unavailable error when the device
returns `null`/`undefined` and when it returns `-1`; any other integer,
`0` included, is returned unchanged. -/
theorem getBrightness_unavailable_sentinels (n : Int) (h : n ≠ -1) :
    (getBrightness (.ok none)).result = .error .valueNotAvailable ∧
    (getBrightness (.ok (some (-1)))).result = .error .valueNotAvailable ∧
    (getBrightness (.ok (some n))).result = .ok n := by
  refine ⟨rfl, rfl, ?_⟩
  simp [getBrightness, isNullOrUndefined, h]

/-- C5 witness: the device returning `0` succeeds with `0`. -/
theorem getBrightness_unavailable_sentinels_witness :
    (getBrightness (.ok none)).result = .error .valueNotAvailable ∧
    (getBrightness (.ok (some (-1)))).result = .error .valueNotAvailable ∧
    (getBrightness (.ok (some 0))).result = .ok 0 :=
  getBrightness_unavailable_sentinels 0 (by decide)

/-- C6: for every device-returned color string, if it is empty/falsy then
`getHue` and `getSaturation` each fail with the unavailable error and run
`setNotResponding` exactly once; otherwise `getHue` returns the hue
component and `getSaturation` the saturation component of the
`convert.hex.hsl` conversion of that string. -/
theorem color_reads_empty_fail_otherwise_hsl (v : Option String) :
    (jsFalsyString v = true →
      (getHue (.ok v)).result = .error .valueNotAvailable ∧
      (getHue (.ok v)).notResponding = 1 ∧
      (getSaturation (.ok v)).result = .error .valueNotAvailable ∧
      (getSaturation (.ok v)).notResponding = 1) ∧
    (jsFalsyString v = false →
      (getHue (.ok v)).result = .ok (hex_hsl (v.getD "")).1 ∧
      (getSaturation (.ok v)).result = .ok (hex_hsl (v.getD "")).2.1) := by
  constructor <;> intro h <;> simp [getHue, getSaturation, h]

/-- C6 witness: the empty string fails both reads with one
`setNotResponding` each; `"3333FF"` decodes to its HSL components. -/
theorem color_reads_empty_fail_otherwise_hsl_witness :
    ((getHue (.ok (some ""))).result = .error .valueNotAvailable ∧
      (getHue (.ok (some ""))).notResponding = 1 ∧
      (getSaturation (.ok (some ""))).result = .error .valueNotAvailable ∧
      (getSaturation (.ok (some ""))).notResponding = 1) ∧
    ((getHue (.ok (some "3333FF"))).result = .ok (hex_hsl "3333FF").1 ∧
      (getSaturation (.ok (some "3333FF"))).result = .ok (hex_hsl "3333FF").2.1) :=
  ⟨(color_reads_empty_fail_otherwise_hsl (some "")).1 (by decide),
    (color_reads_empty_fail_otherwise_hsl (some "3333FF")).2 (by decide)⟩

/-- C10: every get handler, on every failure, passes the thrown error to
the host callback and rethrows that same error; a failed get never
resolves with a value (its result is the error, not an `ok`). -/
theorem gets_report_callback_and_rethrow (devB : Except Err (Option Bool))
    (devI : Except Err (Option Int)) (devS devT : Except Err (Option String))
    (e₁ e₂ e₃ e₄ : Err) :
    ((getOn devB).result = .error e₁ → (getOn devB).callbacks = [e₁]) ∧
    ((getBrightness devI).result = .error e₂ →
      (getBrightness devI).callbacks = [e₂]) ∧
    ((getHue devS).result = .error e₃ → (getHue devS).callbacks = [e₃]) ∧
    ((getSaturation devT).result = .error e₄ →
      (getSaturation devT).callbacks = [e₄]) := by
  refine ⟨?_, ?_, ?_, ?_⟩
  · cases devB with
    | error e =>
      intro h
      cases h
      rfl
    | ok v =>
      simp only [getOn]
      split <;> (intro h; cases h; try rfl)
  · cases devI with
    | error e =>
      intro h
      cases h
      rfl
    | ok v =>
      simp only [getBrightness]
      split <;> (intro h; cases h; try rfl)
  · cases devS with
    | error e =>
      intro h
      cases h
      rfl
    | ok v =>
      simp only [getHue]
      split <;> (intro h; cases h; try rfl)
  · cases devT with
    | error e =>
      intro h
      cases h
      rfl
    | ok v =>
      simp only [getSaturation]
      split <;> (intro h; cases h; try rfl)

/-- C10 witness: one failure of each kind, each reported to the callback
as the same error that is rethrown. -/
theorem gets_report_callback_and_rethrow_witness :
    (getOn (.ok none)).callbacks = [.valueNotAvailable] ∧
    (getBrightness (.error (.deviceFailure 3))).callbacks = [.deviceFailure 3] ∧
    (getHue (.ok (some ""))).callbacks = [.valueNotAvailable] ∧
    (getSaturation (.error (.deviceFailure 7))).callbacks = [.deviceFailure 7] :=
  ⟨(gets_report_callback_and_rethrow (.ok none) (.error (.deviceFailure 3))
        (.ok (some "")) (.error (.deviceFailure 7)) .valueNotAvailable
        (.deviceFailure 3) .valueNotAvailable (.deviceFailure 7)).1 rfl,
    (gets_report_callback_and_rethrow (.ok none) (.error (.deviceFailure 3))
        (.ok (some "")) (.error (.deviceFailure 7)) .valueNotAvailable
        (.deviceFailure 3) .valueNotAvailable (.deviceFailure 7)).2.1 rfl,
    (gets_report_callback_and_rethrow (.ok none) (.error (.deviceFailure 3))
        (.ok (some "")) (.error (.deviceFailure 7)) .valueNotAvailable
        (.deviceFailure 3) .valueNotAvailable (.deviceFailure 7)).2.2.1 rfl,
    (gets_report_callback_and_rethrow (.ok none) (.error (.deviceFailure 3))
        (.ok (some "")) (.error (.deviceFailure 7)) .valueNotAvailable
        (.deviceFailure 3) .valueNotAvailable (.deviceFailure 7)).2.2.2 rfl⟩

attribute [local semireducible] Rat.mul Rat.inv Rat.add Rat.sub in
/-- C7 counterexample: the single write produced by `setHue 240` then
`setSaturation 80` is `"3333FF"`, which is not the color `#0014cc`: the
two decode to different RGB triples, and `#0014cc` itself decodes to hue
234, not 240. -/
theorem scenario_240_80_write_is_3333FF_cx :
    (setHue ⟨none, none⟩ 240 (.ok ())).2.writes
        ++ (setSaturation (setHue ⟨none, none⟩ 240 (.ok ())).1 80 (.ok ())).2.writes
      = ["3333FF"] ∧
    hex_rgb "3333FF" ≠ hex_rgb "0014cc" ∧
    (hex_hsl "0014cc").1 = 234 := by
  refine ⟨?_, by decide, by decide⟩
  have h1 : (setHue ⟨none, none⟩ 240 (.ok ())).2.writes = [] := by
    simp [setHue, isColorDefined, isNullOrUndefined]
  have h2 : (setHue ⟨none, none⟩ 240 (.ok ())).1 = ⟨some 240, none⟩ := by
    simp [setHue, isColorDefined, isNullOrUndefined]
  rw [h1, h2]
  simp only [setSaturation, setRgbColor, isColorDefined, isNullOrUndefined]
  norm_num
  decide

attribute [local semireducible] Rat.mul Rat.inv Rat.add Rat.sub in
/-- C7 amended: starting from empty pending state, `setHue 240` then
`setSaturation 80` issues exactly one device `setValue` call, whose value
is the hex string `"3333FF"` (the HSV `(240, 80, 100)` encoding, i.e.
`#3333ff`, not `#0014cc`), and the pending state is empty afterwards. -/
theorem scenario_240_80_single_write :
    (setHue ⟨none, none⟩ 240 (.ok ())).2.writes
        ++ (setSaturation (setHue ⟨none, none⟩ 240 (.ok ())).1 80 (.ok ())).2.writes
      = ["3333FF"] ∧
    (setSaturation (setHue ⟨none, none⟩ 240 (.ok ())).1 80 (.ok ())).1
      = ⟨none, none⟩ := by
  have h2 : (setHue ⟨none, none⟩ 240 (.ok ())).1 = ⟨some 240, none⟩ := by
    simp [setHue, isColorDefined, isNullOrUndefined]
  refine ⟨?_, ?_⟩
  · have h1 : (setHue ⟨none, none⟩ 240 (.ok ())).2.writes = [] := by
      simp [setHue, isColorDefined, isNullOrUndefined]
    rw [h1, h2]
    simp only [setSaturation, setRgbColor, isColorDefined, isNullOrUndefined]
    norm_num
    decide
  · rw [h2]
    simp [setSaturation, setRgbColor, isColorDefined, isNullOrUndefined,
      resetColor]

attribute [local semireducible] Rat.mul Rat.inv Rat.add Rat.sub in
/-- C9 counterexample: `"not-a-color"` is a non-empty string that is no
well-formed RGB hex triplet, yet the read does not fail: `convert`
silently falls back to black, so `getHue` succeeds with `0`, invoking no
error callback, and `getSaturation` likewise succeeds with `0`. -/
theorem malformed_color_silently_defaults_cx :
    (getHue (.ok (some "not-a-color"))).result = .ok 0 ∧
    (getHue (.ok (some "not-a-color"))).callbacks = [] ∧
    (getSaturation (.ok (some "not-a-color"))).result = .ok 0 := by
  refine ⟨?_, ?_, ?_⟩ <;> decide

attribute [local semireducible] Rat.mul Rat.inv Rat.add Rat.sub in
/-- C9 amended: for every non-empty device color string in which no 3 or
6 consecutive characters are hex digits, the decode used by `getHue` and
`getSaturation` silently falls back to black — both reads succeed, with
hue `0` and saturation `0`, no error, no callback and no not-responding
marking; no `InvalidColorFormat` failure exists in the code. -/
theorem malformed_color_defaults_to_black (s : String)
    (hm : hexMatch s.data = none) (hne : s ≠ "") :
    (getHue (.ok (some s))).result = .ok 0 ∧
    (getHue (.ok (some s))).callbacks = [] ∧
    (getHue (.ok (some s))).notResponding = 0 ∧
    (getSaturation (.ok (some s))).result = .ok 0 ∧
    (getSaturation (.ok (some s))).callbacks = [] ∧
    (getSaturation (.ok (some s))).notResponding = 0 := by
  have hfals : jsFalsyString (some s) = false := by
    simp [jsFalsyString, hne]
  have hrgb : hex_rgb s = (0, 0, 0) := by
    simp [hex_rgb, hm]
  have hhsl : hex_hsl s = (0, 0, 0) := by
    simp only [hex_hsl]
    rw [hrgb]
    decide
  simp [getHue, getSaturation, hfals, hhsl]

/-- C9 amended witness: the concrete malformed string `"#zz!"`. -/
theorem malformed_color_defaults_to_black_witness :
    (getHue (.ok (some "#zz!"))).result = .ok 0 ∧
    (getHue (.ok (some "#zz!"))).callbacks = [] ∧
    (getHue (.ok (some "#zz!"))).notResponding = 0 ∧
    (getSaturation (.ok (some "#zz!"))).result = .ok 0 ∧
    (getSaturation (.ok (some "#zz!"))).callbacks = [] ∧
    (getSaturation (.ok (some "#zz!"))).notResponding = 0 :=
  malformed_color_defaults_to_black "#zz!" (by decide) (by decide)

attribute [local semireducible] Rat.mul Rat.inv Rat.add Rat.sub in
/-- C8 counterexample: the valid 6-digit hex string `"818180"` decodes to
hue 60 and saturation 0; re-encoding that hue and derived saturation via
`convert.hsv.hex` (value 100) gives `"FFFFFF"`, whose decoded hue is 0 —
sixty degrees away from the original hue, far beyond rounding
tolerance. -/
theorem hue_roundtrip_not_preserved_cx :
    (hex_hsl "818180").1 = 60 ∧ (hex_hsl "818180").2.1 = 0 ∧
    hsv_hex (60, 0, 100) = "FFFFFF" ∧
    (hex_hsl "FFFFFF").1 = 0 ∧
    hueDist 0 60 = 60 := by
  refine ⟨by decide, by decide, by decide, by decide, by decide⟩

/-! Auxiliary lemmas for the C8 round-trip analysis: the hex printing in
`rgb_hex` inverts `hex_rgb`, and the rational channel arithmetic of the
converters collapses to the integer arithmetic of `hsvBytes` and
`rgbHueInt`. -/

lemma hexDigitVal_hexDigitChar : ∀ n < 16, hexDigitVal (hexDigitChar n) = n := by
  decide

lemma isHexDigit_hexDigitChar : ∀ n < 16, isHexDigit (hexDigitChar n) = true := by
  decide

lemma parseHex_append_singleton (l : List Char) (c : Char) :
    parseHex (l ++ [c]) = parseHex l * 16 + hexDigitVal c := by
  simp [parseHex, List.foldl_append]

lemma natHexAux_parse : ∀ fuel n, n < fuel → parseHex (natHexAux fuel n) = n := by
  intro fuel
  induction fuel with
  | zero => omega
  | succ fuel ih =>
    intro n hn
    by_cases h16 : n < 16
    · simp [natHexAux, h16, parseHex, hexDigitVal_hexDigitChar n h16]
    · have hdiv : n / 16 < fuel := by omega
      simp only [natHexAux, h16, if_false, parseHex_append_singleton, ih _ hdiv,
        hexDigitVal_hexDigitChar (n % 16) (Nat.mod_lt n (by norm_num))]
      omega

lemma natHexAux_all_hex : ∀ fuel n, n < fuel →
    (natHexAux fuel n).all isHexDigit = true := by
  intro fuel
  induction fuel with
  | zero => omega
  | succ fuel ih =>
    intro n hn
    by_cases h16 : n < 16
    · simp [natHexAux, h16, isHexDigit_hexDigitChar n h16]
    · have hdiv : n / 16 < fuel := by omega
      simp [natHexAux, h16, List.all_append, ih _ hdiv,
        isHexDigit_hexDigitChar (n % 16) (Nat.mod_lt n (by norm_num))]

lemma natHexAux_length : ∀ fuel n k, n < fuel → n < 16 ^ k → 1 ≤ k →
    (natHexAux fuel n).length ≤ k := by
  intro fuel
  induction fuel with
  | zero => omega
  | succ fuel ih =>
    intro n k hn hk hk1
    by_cases h16 : n < 16
    · simpa [natHexAux, h16] using hk1
    · have hdiv : n / 16 < fuel := by omega
      have hk2 : 2 ≤ k := by
        rcases k with _ | _ | k
        · omega
        · norm_num at hk
          omega
        · omega
      have hpow : n / 16 < 16 ^ (k - 1) := by
        have : n < 16 * 16 ^ (k - 1) := by
          have hk' : 16 ^ k = 16 * 16 ^ (k - 1) := by
            conv_lhs => rw [show k = 1 + (k - 1) by omega]
            rw [pow_add, pow_one]
          omega
        omega
      have := ih (n / 16) (k - 1) hdiv hpow (by omega)
      simp only [natHexAux, h16, if_false, List.length_append, List.length_cons,
        List.length_nil]
      omega

lemma parseHex_replicate_zero : ∀ (k : Nat) (l : List Char),
    parseHex (List.replicate k '0' ++ l) = parseHex l := by
  intro k
  induction k with
  | zero => simp
  | succ k ih =>
    intro l
    have h0 : hexDigitVal '0' = 0 := by decide
    simpa [List.replicate_succ, parseHex, h0] using ih l

lemma hexMatch_of_six (l : List Char) (hlen : l.length = 6)
    (hall : l.all isHexDigit = true) : hexMatch l = some l := by
  match l, hlen with
  | c :: cs, hlen =>
    have htake : (c :: cs).take 6 = c :: cs := by
      rw [← hlen]
      simp
    simp only [hexMatch, htake, hlen, hall]
    simp

lemma jsByte_lt (q : ℚ) : jsByte q < 256 := by
  have h1 : jsRound q % 256 < 256 := Int.emod_lt_of_pos _ (by norm_num)
  have h2 : 0 ≤ jsRound q % 256 := Int.emod_nonneg _ (by norm_num)
  simp only [jsByte]
  omega

lemma hex_rgb_rgb_hex (q₁ q₂ q₃ : ℚ) :
    hex_rgb (rgb_hex (q₁, q₂, q₃)) = (jsByte q₁, jsByte q₂, jsByte q₃) := by
  have hA := jsByte_lt q₁
  have hB := jsByte_lt q₂
  have hC := jsByte_lt q₃
  set A := jsByte q₁ with hAdef
  set B := jsByte q₂ with hBdef
  set C := jsByte q₃ with hCdef
  have hn : A * 65536 + B * 256 + C < 16 ^ 6 := by norm_num; omega
  set n := A * 65536 + B * 256 + C with hndef
  have hdig_parse : parseHex (natHexUpper n) = n := natHexAux_parse (n + 1) n (by omega)
  have hdig_hex : (natHexUpper n).all isHexDigit = true := natHexAux_all_hex (n + 1) n (by omega)
  have hdig_len : (natHexUpper n).length ≤ 6 :=
    natHexAux_length (n + 1) n 6 (by omega) hn (by norm_num)
  set ds := natHexUpper n with hdsdef
  set padded := List.replicate (6 - ds.length) '0' ++ ds with hpaddef
  have hplen : padded.length = 6 := by
    simp only [hpaddef, List.length_append, List.length_replicate]
    omega
  have hphex : padded.all isHexDigit = true := by
    simp only [hpaddef, List.all_append, hdig_hex, Bool.and_true, List.all_eq_true]
    intro c hc
    have : c = '0' := List.eq_of_mem_replicate hc
    subst this
    decide
  have hmatch : hexMatch padded = some padded := hexMatch_of_six padded hplen hphex
  have hparse : parseHex padded = n := by
    rw [hpaddef, parseHex_replicate_zero, hdig_parse]
  show hex_rgb (String.mk padded) = (A, B, C)
  simp only [hex_rgb, hmatch, hplen, hparse]
  norm_num
  refine ⟨?_, ?_, ?_⟩
  · rw [Nat.shiftRight_eq_div_pow,
      show (255 : ℕ) = 2 ^ 8 - 1 by norm_num, Nat.and_pow_two_sub_one_eq_mod]
    omega
  · rw [Nat.shiftRight_eq_div_pow,
      show (255 : ℕ) = 2 ^ 8 - 1 by norm_num, Nat.and_pow_two_sub_one_eq_mod]
    omega
  · rw [show (255 : ℕ) = 2 ^ 8 - 1 by norm_num, Nat.and_pow_two_sub_one_eq_mod]
    omega

lemma jsRound_natCast_div (N d : Nat) (hd : 0 < d) :
    jsRound ((N : ℚ) / (d : ℚ)) = ((2 * N + d) / (2 * d) : ℕ) := by
  have hd' : (d : ℚ) ≠ 0 := by positivity
  have h1 : (N : ℚ) / (d : ℚ) + 1 / 2 = ((2 * N + d : ℕ) : ℚ) / ((2 * d : ℕ) : ℚ) := by
    push_cast
    field_simp
    ring
  simp only [jsRound, h1]
  rw [Rat.floor_natCast_div_natCast]
  push_cast
  rfl

lemma jsByte_natCast_div_6000 (N : Nat) (hN : N ≤ 1530000) :
    jsByte ((N : ℚ) / 6000) = (N + 3000) / 6000 := by
  have h1 : jsRound ((N : ℚ) / 6000) = ((2 * N + 6000) / (2 * 6000) : ℕ) := by
    have := jsRound_natCast_div N 6000 (by norm_num)
    simpa using this
  have h2 : (2 * N + 6000) / (2 * 6000) = (N + 3000) / 6000 := by
    omega
  have h3 : (N + 3000) / 6000 < 256 := by omega
  simp only [jsByte, h1, h2]
  rw [Int.emod_eq_of_lt (by positivity) (by exact_mod_cast h3)]
  omega

lemma jsRound_intCast_div (m d : ℤ) (hd : 0 < d) :
    jsRound ((m : ℚ) / (d : ℚ)) = (2 * m + d) / (2 * d) := by
  have hd' : (d : ℚ) ≠ 0 := by
    simp only [ne_eq, Int.cast_eq_zero]
    omega
  have h1 : (m : ℚ) / (d : ℚ) + 1 / 2
      = ((2 * m + d : ℤ) : ℚ) / (((2 * d).toNat : ℕ) : ℚ) := by
    have h2d : (((2 * d).toNat : ℕ) : ℚ) = ((2 * d : ℤ) : ℚ) := by
      rw [show ((2 * d).toNat : ℚ) = (((2 * d).toNat : ℤ) : ℚ) by push_cast; ring]
      rw [Int.toNat_of_nonneg (by omega)]
    rw [h2d]
    push_cast
    field_simp
    ring
  simp only [jsRound, h1]
  rw [Rat.floor_intCast_div_natCast]
  rw [Int.toNat_of_nonneg (by omega)]

lemma jsByte_eq_of_div_6000 (X : ℚ) (N : ℕ) (hN : N ≤ 1530000)
    (hX : X = (N : ℚ) / 6000) : jsByte X = (N + 3000) / 6000 := by
  rw [hX]
  exact jsByte_natCast_div_6000 N hN

lemma jsByte_255 : jsByte (255 : ℚ) = 255 := by
  have h1 : (255 : ℚ) = ((1530000 : ℕ) : ℚ) / 6000 := by norm_num
  rw [h1, jsByte_natCast_div_6000 1530000 (by norm_num)]

lemma hsv_bytes_eq (h s : Nat) (hh : h ≤ 360) (hs : s ≤ 100) :
    (jsByte (hsv_rgb ((h : ℚ), (s : ℚ), 100)).1,
     jsByte (hsv_rgb ((h : ℚ), (s : ℚ), 100)).2.1,
     jsByte (hsv_rgb ((h : ℚ), (s : ℚ), 100)).2.2) = hsvBytes h s := by
  have hfl : jsFloor ((h : ℚ) / 60) = ((h / 60 : ℕ) : ℤ) := by
    show Int.floor ((h : ℚ) / ((60 : ℕ) : ℚ)) = _
    rw [Rat.floor_natCast_div_natCast]
    omega
  have htm : Int.tmod ((h / 60 : ℕ) : ℤ) 6 = ((h / 60 % 6 : ℕ) : ℤ) := by
    rw [Int.tmod_eq_emod (by positivity) (by norm_num)]
    omega
  have hqle : s * (h % 60) ≤ 6000 := by
    have h1 : h % 60 ≤ 60 := by omega
    calc s * (h % 60) ≤ 100 * 60 := Nat.mul_le_mul hs h1
    _ ≤ 6000 := by norm_num
  have htle : s * (60 - h % 60) ≤ 6000 := by
    have h1 : 60 - h % 60 ≤ 60 := by omega
    calc s * (60 - h % 60) ≤ 100 * 60 := Nat.mul_le_mul hs h1
    _ ≤ 6000 := by norm_num
  have hfq : ((h : ℚ) / 60 - (((h / 60 : ℕ) : ℤ) : ℚ)) = ((h % 60 : ℕ) : ℚ) / 60 := by
    have hcast : (h : ℚ) = 60 * ((h / 60 : ℕ) : ℚ) + ((h % 60 : ℕ) : ℚ) := by
      exact_mod_cast congrArg (Nat.cast : ℕ → ℚ)
        (by omega : h = 60 * (h / 60) + h % 60)
    rw [Int.cast_natCast, hcast]
    ring
  simp only [hsv_rgb, hfl, htm, hsvBytes]
  obtain ⟨k, hk⟩ : ∃ k, h / 60 = k := ⟨_, rfl⟩
  rw [hk]
  have hk6 : k ≤ 6 := by omega
  have hm60 : h % 60 ≤ 60 := by omega
  interval_cases k <;>
    (norm_num
     rw [hk] at hfq
     norm_num at hfq
     simp only [hfq]
     refine ⟨?_, ?_, ?_⟩ <;>
       first
         | exact jsByte_255
         | (refine jsByte_eq_of_div_6000 _ _ ?_ ?_
            · have hb1 := Nat.sub_le 6000 (s * (h % 60))
              have hb2 := Nat.sub_le 6000 (s * (60 - h % 60))
              omega
            · push_cast [Nat.cast_sub hs, Nat.cast_sub hqle, Nat.cast_sub htle,
                Nat.cast_sub hm60]
              field_simp
              ring))

lemma jsRound_zero : jsRound (0 : ℚ) = 0 := by
  have h1 : (0 : ℚ) + 1 / 2 = ((1 : ℤ) : ℚ) / ((2 : ℕ) : ℚ) := by norm_num
  rw [jsRound, h1, Rat.floor_intCast_div_natCast]
  decide

lemma jsRound_360 : jsRound (360 : ℚ) = 360 := by
  have h1 : (360 : ℚ) + 1 / 2 = ((721 : ℤ) : ℚ) / ((2 : ℕ) : ℚ) := by norm_num
  rw [jsRound, h1, Rat.floor_intCast_div_natCast]
  decide

lemma jsRound_hue_pipeline (N D : ℤ) (hD : 0 < D) :
    jsRound (if min (((N : ℚ) / (D : ℚ)) * 60) 360 < 0
             then min (((N : ℚ) / (D : ℚ)) * 60) 360 + 360
             else min (((N : ℚ) / (D : ℚ)) * 60) 360)
      = (if 60 * N ≤ 360 * D then
           if N < 0 then (120 * N + 720 * D + D) / (2 * D)
           else (120 * N + D) / (2 * D)
         else 360) := by
  have hD' : (0 : ℚ) < (D : ℚ) := by exact_mod_cast hD
  have hDne : (D : ℚ) ≠ 0 := ne_of_gt hD'
  have hmul : ((N : ℚ) / (D : ℚ)) * 60 = ((60 * N : ℤ) : ℚ) / ((D : ℤ) : ℚ) := by
    push_cast
    ring
  rw [hmul]
  by_cases hcap : 60 * N ≤ 360 * D
  · have hcapq : ((60 * N : ℤ) : ℚ) / (D : ℚ) ≤ 360 := by
      rw [div_le_iff₀ hD']
      exact_mod_cast hcap
    rw [min_eq_left hcapq, if_pos hcap]
    by_cases hneg : N < 0
    · have hnegq : ((60 * N : ℤ) : ℚ) / (D : ℚ) < 0 := by
        apply div_neg_of_neg_of_pos _ hD'
        exact_mod_cast (by omega : 60 * N < 0)
      rw [if_pos hnegq, if_pos hneg]
      have hshift : ((60 * N : ℤ) : ℚ) / (D : ℚ) + 360
          = ((60 * N + 360 * D : ℤ) : ℚ) / ((D : ℤ) : ℚ) := by
        push_cast
        field_simp
      rw [hshift, jsRound_intCast_div _ _ hD,
        show 2 * (60 * N + 360 * D) + D = 120 * N + 720 * D + D from by ring]
    · have hnegq : ¬ ((60 * N : ℤ) : ℚ) / (D : ℚ) < 0 := by
        push_neg
        apply div_nonneg _ (le_of_lt hD')
        exact_mod_cast (by omega : (0 : ℤ) ≤ 60 * N)
      rw [if_neg hnegq, if_neg hneg, jsRound_intCast_div _ _ hD,
        show 2 * (60 * N) + D = 120 * N + D from by ring]
  · have hcapq : (360 : ℚ) ≤ ((60 * N : ℤ) : ℚ) / (D : ℚ) := by
      rw [le_div_iff₀ hD']
      exact_mod_cast (by omega : 360 * D ≤ 60 * N)
    rw [min_eq_right hcapq, if_neg (by norm_num : ¬ (360 : ℚ) < 0), if_neg hcap,
      jsRound_360]

lemma hue_frac (x y u v : ℕ) (huv : v < u) :
    ((x : ℚ) / 255 - (y : ℚ) / 255) / ((u : ℚ) / 255 - (v : ℚ) / 255)
      = (((x : ℤ) - (y : ℤ) : ℤ) : ℚ) / (((u : ℤ) - (v : ℤ) : ℤ) : ℚ) := by
  have hne : ((u : ℚ) - (v : ℚ)) ≠ 0 := by
    have : (v : ℚ) < (u : ℚ) := by exact_mod_cast huv
    intro hcon
    rw [sub_eq_zero] at hcon
    exact absurd hcon (ne_of_gt this)
  rw [div_sub_div_same, div_sub_div_same, div_div_div_cancel_right₀]
  · push_cast
    ring_nf
  · norm_num

lemma two_add_frac (A B : ℤ) (hB : 0 < B) :
    2 + (A : ℚ) / (B : ℚ) = ((2 * B + A : ℤ) : ℚ) / ((B : ℤ) : ℚ) := by
  have hBne : ((B : ℤ) : ℚ) ≠ 0 := by
    simp only [ne_eq, Int.cast_eq_zero]
    omega
  field_simp

lemma four_add_frac (A B : ℤ) (hB : 0 < B) :
    4 + (A : ℚ) / (B : ℚ) = ((4 * B + A : ℤ) : ℚ) / ((B : ℤ) : ℚ) := by
  have hBne : ((B : ℤ) : ℚ) ≠ 0 := by
    simp only [ne_eq, Int.cast_eq_zero]
    omega
  field_simp

lemma rgb_hue_eq (a b c : Nat) :
    jsRound (rgb_hsl (a, b, c)).1 = rgbHueInt a b c := by
  have hiff : ∀ x y : ℕ, ((x : ℚ) / 255 = (y : ℚ) / 255) ↔ x = y := by
    intro x y
    rw [div_eq_div_iff (by norm_num) (by norm_num)]
    constructor
    · intro hxy
      exact_mod_cast mul_right_cancel₀ (show (255 : ℚ) ≠ 0 by norm_num) hxy
    · intro hxy
      rw [hxy]
  have hmin : min ((a : ℚ) / 255) (min ((b : ℚ) / 255) ((c : ℚ) / 255))
      = ((min a (min b c) : ℕ) : ℚ) / 255 := by
    rw [min_div_div_right (by norm_num : (0 : ℚ) ≤ 255),
      min_div_div_right (by norm_num : (0 : ℚ) ≤ 255)]
    push_cast
    rfl
  have hmax : max ((a : ℚ) / 255) (max ((b : ℚ) / 255) ((c : ℚ) / 255))
      = ((max a (max b c) : ℕ) : ℚ) / 255 := by
    rw [max_div_div_right (by norm_num : (0 : ℚ) ≤ 255),
      max_div_div_right (by norm_num : (0 : ℚ) ≤ 255)]
    push_cast
    rfl
  simp only [rgb_hsl, rgbHueInt]
  rw [hmin, hmax]
  simp only [hiff]
  set M := max a (max b c) with hM
  set m := min a (min b c) with hm
  by_cases hMm : M = m
  · rw [if_pos hMm, if_pos hMm]
    norm_num [jsRound_zero]
  · rw [if_neg hMm, if_neg hMm]
    have hma : m ≤ a := by
      rw [hm]
      exact min_le_left _ _
    have haM : a ≤ M := by
      rw [hM]
      exact le_max_left _ _
    have hmb : m ≤ b := by
      rw [hm]
      exact le_trans (min_le_right _ _) (min_le_left _ _)
    have hbM : b ≤ M := by
      rw [hM]
      exact le_trans (le_max_left _ _) (le_max_right _ _)
    have hmM : m < M := by omega
    have hD : (0 : ℤ) < (M : ℤ) - (m : ℤ) := by omega
    by_cases haMx : a = M
    · rw [if_pos haMx, if_pos haMx, hue_frac b c M m hmM]
      exact jsRound_hue_pipeline _ _ hD
    · rw [if_neg haMx, if_neg haMx]
      by_cases hbMx : b = M
      · rw [if_pos hbMx, if_pos hbMx, hue_frac c a M m hmM,
          two_add_frac _ _ hD]
        exact jsRound_hue_pipeline _ _ hD
      · rw [if_neg hbMx, if_neg hbMx, hue_frac a b M m hmM,
          four_add_frac _ _ hD]
        exact jsRound_hue_pipeline _ _ hD

lemma natHue_eq (a b c : Nat) (ha : a ≤ 255) (hb : b ≤ 255) (hc : c ≤ 255) :
    rgbHueInt a b c = (natHue a b c : Int) := by
  simp only [rgbHueInt, natHue]
  have hmnb : min a (min b c) ≤ b := le_trans (min_le_right _ _) (min_le_left _ _)
  have hmnc : min a (min b c) ≤ c := le_trans (min_le_right _ _) (min_le_right _ _)
  have hmna : min a (min b c) ≤ a := min_le_left _ _
  have hmxb : b ≤ max a (max b c) := le_trans (le_max_left _ _) (le_max_right _ _)
  have hmxc : c ≤ max a (max b c) := le_trans (le_max_right _ _) (le_max_right _ _)
  have hmxa : a ≤ max a (max b c) := le_max_left _ _
  set M := max a (max b c) with hM
  set m := min a (min b c) with hm
  by_cases hMm : M = m
  · rw [if_pos hMm, if_pos hMm]
    norm_num
  · rw [if_neg hMm, if_neg hMm]
    have hmM : m < M := by omega
    by_cases haMx : a = M
    · rw [if_pos haMx, if_pos haMx]
      have hcond : (60 * ((b : ℤ) - (c : ℤ)) ≤ 360 * ((M : ℤ) - (m : ℤ)))
          ↔ (60 * (360 + b - c) ≤ 360 * (M - m) + 21600) := by omega
      have hneg : (((b : ℤ) - (c : ℤ)) < 0) ↔ (360 + b - c < 360) := by omega
      by_cases hcap : 60 * ((b : ℤ) - (c : ℤ)) ≤ 360 * ((M : ℤ) - (m : ℤ))
      · rw [if_pos hcap, if_pos (hcond.mp hcap)]
        by_cases hn : ((b : ℤ) - (c : ℤ)) < 0
        · rw [if_pos hn, if_pos (hneg.mp hn), Int.natCast_div]
          have hnum : ((120 * (360 + b - c) + 720 * (M - m) + (M - m) - 43200 : ℕ) : ℤ)
              = 120 * ((b : ℤ) - (c : ℤ)) + 720 * ((M : ℤ) - (m : ℤ)) + ((M : ℤ) - (m : ℤ)) := by
            omega
          have hden : ((2 * (M - m) : ℕ) : ℤ) = 2 * ((M : ℤ) - (m : ℤ)) := by omega
          rw [hnum, hden]
        · rw [if_neg hn, if_neg (fun hcon => hn (hneg.mpr hcon)), Int.natCast_div]
          have hnum : ((120 * (360 + b - c) + (M - m) - 43200 : ℕ) : ℤ)
              = 120 * ((b : ℤ) - (c : ℤ)) + ((M : ℤ) - (m : ℤ)) := by
            omega
          have hden : ((2 * (M - m) : ℕ) : ℤ) = 2 * ((M : ℤ) - (m : ℤ)) := by omega
          rw [hnum, hden]
      · rw [if_neg hcap, if_neg (fun hcon => hcap (hcond.mpr hcon))]
        norm_num
    · rw [if_neg haMx, if_neg haMx]
      by_cases hbMx : b = M
      · rw [if_pos hbMx, if_pos hbMx]
        have hcond : (60 * (2 * ((M : ℤ) - (m : ℤ)) + ((c : ℤ) - (a : ℤ)))
              ≤ 360 * ((M : ℤ) - (m : ℤ)))
            ↔ (60 * (360 + 2 * (M - m) + c - a) ≤ 360 * (M - m) + 21600) := by omega
        have hneg : ((2 * ((M : ℤ) - (m : ℤ)) + ((c : ℤ) - (a : ℤ))) < 0)
            ↔ (360 + 2 * (M - m) + c - a < 360) := by omega
        by_cases hcap : 60 * (2 * ((M : ℤ) - (m : ℤ)) + ((c : ℤ) - (a : ℤ)))
            ≤ 360 * ((M : ℤ) - (m : ℤ))
        · rw [if_pos hcap, if_pos (hcond.mp hcap)]
          by_cases hn : (2 * ((M : ℤ) - (m : ℤ)) + ((c : ℤ) - (a : ℤ))) < 0
          · rw [if_pos hn, if_pos (hneg.mp hn), Int.natCast_div]
            have hnum : ((120 * (360 + 2 * (M - m) + c - a) + 720 * (M - m) + (M - m) - 43200 : ℕ) : ℤ)
                = 120 * (2 * ((M : ℤ) - (m : ℤ)) + ((c : ℤ) - (a : ℤ)))
                  + 720 * ((M : ℤ) - (m : ℤ)) + ((M : ℤ) - (m : ℤ)) := by
              omega
            have hden : ((2 * (M - m) : ℕ) : ℤ) = 2 * ((M : ℤ) - (m : ℤ)) := by omega
            rw [hnum, hden]
          · rw [if_neg hn, if_neg (fun hcon => hn (hneg.mpr hcon)), Int.natCast_div]
            have hnum : ((120 * (360 + 2 * (M - m) + c - a) + (M - m) - 43200 : ℕ) : ℤ)
                = 120 * (2 * ((M : ℤ) - (m : ℤ)) + ((c : ℤ) - (a : ℤ))) + ((M : ℤ) - (m : ℤ)) := by
              omega
            have hden : ((2 * (M - m) : ℕ) : ℤ) = 2 * ((M : ℤ) - (m : ℤ)) := by omega
            rw [hnum, hden]
        · rw [if_neg hcap, if_neg (fun hcon => hcap (hcond.mpr hcon))]
          norm_num
      · rw [if_neg hbMx, if_neg hbMx]
        have hcond : (60 * (4 * ((M : ℤ) - (m : ℤ)) + ((a : ℤ) - (b : ℤ)))
              ≤ 360 * ((M : ℤ) - (m : ℤ)))
            ↔ (60 * (360 + 4 * (M - m) + a - b) ≤ 360 * (M - m) + 21600) := by omega
        have hneg : ((4 * ((M : ℤ) - (m : ℤ)) + ((a : ℤ) - (b : ℤ))) < 0)
            ↔ (360 + 4 * (M - m) + a - b < 360) := by omega
        by_cases hcap : 60 * (4 * ((M : ℤ) - (m : ℤ)) + ((a : ℤ) - (b : ℤ)))
            ≤ 360 * ((M : ℤ) - (m : ℤ))
        · rw [if_pos hcap, if_pos (hcond.mp hcap)]
          by_cases hn : (4 * ((M : ℤ) - (m : ℤ)) + ((a : ℤ) - (b : ℤ))) < 0
          · rw [if_pos hn, if_pos (hneg.mp hn), Int.natCast_div]
            have hnum : ((120 * (360 + 4 * (M - m) + a - b) + 720 * (M - m) + (M - m) - 43200 : ℕ) : ℤ)
                = 120 * (4 * ((M : ℤ) - (m : ℤ)) + ((a : ℤ) - (b : ℤ)))
                  + 720 * ((M : ℤ) - (m : ℤ)) + ((M : ℤ) - (m : ℤ)) := by
              omega
            have hden : ((2 * (M - m) : ℕ) : ℤ) = 2 * ((M : ℤ) - (m : ℤ)) := by omega
            rw [hnum, hden]
          · rw [if_neg hn, if_neg (fun hcon => hn (hneg.mpr hcon)), Int.natCast_div]
            have hnum : ((120 * (360 + 4 * (M - m) + a - b) + (M - m) - 43200 : ℕ) : ℤ)
                = 120 * (4 * ((M : ℤ) - (m : ℤ)) + ((a : ℤ) - (b : ℤ))) + ((M : ℤ) - (m : ℤ)) := by
              omega
            have hden : ((2 * (M - m) : ℕ) : ℤ) = 2 * ((M : ℤ) - (m : ℤ)) := by omega
            rw [hnum, hden]
        · rw [if_neg hcap, if_neg (fun hcon => hcap (hcond.mpr hcon))]
          norm_num

lemma hueDist_natAbs (x h : Nat) (hx : x ≤ 360) (hh : h ≤ 360) :
    hueDist (x : Int) (h : Int)
      = ((min (max x h - min x h) (360 - (max x h - min x h)) : ℕ) : Int) := by
  simp only [hueDist]
  omega

lemma rowOk_spec (s : Nat) : ∀ n, rowOk s n = true → ∀ h, h < n → hueTolOk h s = true := by
  intro n
  induction n with
  | zero => omega
  | succ n ih =>
    intro hall h hh
    simp only [rowOk, Bool.and_eq_true] at hall
    rcases Nat.lt_succ_iff_lt_or_eq.mp hh with h1 | h1
    · exact ih hall.2 h h1
    · subst h1
      exact hall.1

lemma chunkOk_spec (lo : Nat) :
    ∀ n, chunkOk lo n = true → ∀ j, j < n → rowOk (lo + j) 361 = true := by
  intro n
  induction n with
  | zero => omega
  | succ n ih =>
    intro hall j hj
    simp only [chunkOk, Bool.and_eq_true] at hall
    rcases Nat.lt_succ_iff_lt_or_eq.mp hj with h1 | h1
    · exact ih hall.2 j h1
    · subst h1
      exact hall.1

lemma hex_rgb_rgb_hex' (p : ℚ × ℚ × ℚ) :
    hex_rgb (rgb_hex p) = (jsByte p.1, jsByte p.2.1, jsByte p.2.2) := by
  obtain ⟨q1, q2, q3⟩ := p
  exact hex_rgb_rgb_hex q1 q2 q3

lemma hue_roundtrip_eq (h s : Nat) (hh : h ≤ 360) (hs : s ≤ 100) :
    (hex_hsl (hsv_hex ((h : ℚ), (s : ℚ), 100))).1
      = rgbHueInt (hsvBytes h s).1 (hsvBytes h s).2.1 (hsvBytes h s).2.2 := by
  have hb := hsv_bytes_eq h s hh hs
  simp only [hex_hsl, hsv_hex]
  rw [hex_rgb_rgb_hex', hb]
  rcases hby : hsvBytes h s with ⟨a, b, c⟩
  dsimp only
  exact rgb_hue_eq a b c

set_option maxRecDepth 100000 in
set_option maxHeartbeats 4000000 in
lemma hueChunk0 : chunkOk 13 8 = true := by
  decide

set_option maxRecDepth 100000 in
set_option maxHeartbeats 4000000 in
lemma hueChunk1 : chunkOk 21 8 = true := by
  decide

set_option maxRecDepth 100000 in
set_option maxHeartbeats 4000000 in
lemma hueChunk2 : chunkOk 29 8 = true := by
  decide

set_option maxRecDepth 100000 in
set_option maxHeartbeats 4000000 in
lemma hueChunk3 : chunkOk 37 8 = true := by
  decide

set_option maxRecDepth 100000 in
set_option maxHeartbeats 4000000 in
lemma hueChunk4 : chunkOk 45 8 = true := by
  decide

set_option maxRecDepth 100000 in
set_option maxHeartbeats 4000000 in
lemma hueChunk5 : chunkOk 53 8 = true := by
  decide

set_option maxRecDepth 100000 in
set_option maxHeartbeats 4000000 in
lemma hueChunk6 : chunkOk 61 8 = true := by
  decide

set_option maxRecDepth 100000 in
set_option maxHeartbeats 4000000 in
lemma hueChunk7 : chunkOk 69 8 = true := by
  decide

set_option maxRecDepth 100000 in
set_option maxHeartbeats 4000000 in
lemma hueChunk8 : chunkOk 77 8 = true := by
  decide

set_option maxRecDepth 100000 in
set_option maxHeartbeats 4000000 in
lemma hueChunk9 : chunkOk 85 8 = true := by
  decide

set_option maxRecDepth 100000 in
set_option maxHeartbeats 4000000 in
lemma hueChunk10 : chunkOk 93 8 = true := by
  decide

lemma rowAll (s : Nat) (h13 : 13 ≤ s) (h100 : s ≤ 100) : rowOk s 361 = true := by
  have hc : ∀ lo n, chunkOk lo n = true → lo ≤ s → s < lo + n → rowOk s 361 = true := by
    intro lo n hok hlo hhi
    have h1 := chunkOk_spec lo n hok (s - lo) (by omega)
    rwa [show lo + (s - lo) = s from by omega] at h1
  by_cases c0 : s < 21
  · exact hc 13 8 hueChunk0 (by omega) (by omega)
  by_cases c1 : s < 29
  · exact hc 21 8 hueChunk1 (by omega) (by omega)
  by_cases c2 : s < 37
  · exact hc 29 8 hueChunk2 (by omega) (by omega)
  by_cases c3 : s < 45
  · exact hc 37 8 hueChunk3 (by omega) (by omega)
  by_cases c4 : s < 53
  · exact hc 45 8 hueChunk4 (by omega) (by omega)
  by_cases c5 : s < 61
  · exact hc 53 8 hueChunk5 (by omega) (by omega)
  by_cases c6 : s < 69
  · exact hc 61 8 hueChunk6 (by omega) (by omega)
  by_cases c7 : s < 77
  · exact hc 69 8 hueChunk7 (by omega) (by omega)
  by_cases c8 : s < 85
  · exact hc 77 8 hueChunk8 (by omega) (by omega)
  by_cases c9 : s < 93
  · exact hc 85 8 hueChunk9 (by omega) (by omega)
  exact hc 93 8 hueChunk10 (by omega) (by omega)

/-- C8 amended: the hue need not survive the round trip — for near-grey
hexes the derived saturation rounds to (almost) zero and the re-encoded
hue can collapse, e.g. from 60 to 0 — but it does survive for saturated
colors: for every integer hue `h ≤ 360` and integer saturation
`13 ≤ s ≤ 100` (integer pairs are what the rounded decoder produces),
re-encoding via `convert.hsv.hex` at value 100 and decoding via
`convert.hex.hsl` yields a hue within one degree of `h`, circularly
(mod 360).  Below saturation 13 the error exceeds one degree. -/
theorem hue_roundtrip_tolerance_saturated (h s : Nat) (hh : h ≤ 360)
    (hs13 : 13 ≤ s) (hs : s ≤ 100) :
    hueDist ((hex_hsl (hsv_hex ((h : ℚ), (s : ℚ), 100))).1) (h : Int) ≤ 1 := by
  rw [hue_roundtrip_eq h s hh hs]
  have hok : hueTolOk h s = true :=
    rowOk_spec s 361 (rowAll s hs13 hs) h (by omega)
  rcases hby : hsvBytes h s with ⟨a, b, c⟩
  simp only [hueTolOk, hby, Bool.and_eq_true, decide_eq_true_eq] at hok
  obtain ⟨⟨⟨ha, hb⟩, hc⟩, hx, hdist⟩ := hok
  dsimp only
  rw [natHue_eq a b c ha hb hc, hueDist_natAbs _ _ hx hh]
  exact_mod_cast hdist

/-- C8 amended witness: the decoded pair of the scenario color, hue 240
at saturation 80, round-trips to within one degree. -/
theorem hue_roundtrip_tolerance_saturated_witness :
    hueDist ((hex_hsl (hsv_hex (((240 : ℕ) : ℚ), ((80 : ℕ) : ℚ), 100))).1)
      ((240 : ℕ) : Int) ≤ 1 :=
  hue_roundtrip_tolerance_saturated 240 80 (by decide) (by decide) (by decide)
